import Mathlib

/-!
Verification of the `Freemanfxzhong/chatbot` repository (three Python
scripts exercising the gensim word-embedding library) against its
natural-language specification.

The scripts contain no original algorithms: they are straight-line glue
code (imports, one load-or-train call, read-only query calls, prints).
We embed them as a deep syntax of Python statements and expressions,
transcribed line by line from the source files, together with

* purely syntactic analyses (name definition/reference scanning,
  query/print classification, keyword-argument extraction), and
* a big-step operational semantics parameterised by an abstract,
  deterministic interpretation of the external library's operations
  (the library's code is not part of the repository).

The external key-to-vector mapping ("KeyedVectors") is modelled from the
spec as a finite association list from string keys to rational vectors,
with cosine similarity over the reals.
-/

namespace Chatbot

/-- Python expressions, restricted to the forms occurring in the three
scripts, plus the general constructors needed to state their absence. -/
inductive Expr where
  | name (s : String)
  | strLit (s : String)
  | numLit (q : ℚ)
  | boolLit (b : Bool)
  | listLit (elems : List Expr)
  | attr (obj : Expr) (field : String)
  | call (fn : Expr) (args : List Expr) (kwargs : List (String × Expr))
  | subscript (obj : Expr) (index : Expr)
  | binop (op : String) (lhs rhs : Expr)
  | star (e : Expr)

/-- Python statements.  The scripts use only the first four (simple,
straight-line) constructors; the remaining constructors represent the
control-flow, error-handling and mutation forms whose absence the spec
asserts, so that those assertions are not vacuously true by typing. -/
inductive Stmt where
  | importAs (module asName : String)
  | fromImport (module : String) (names : List String)
  | assign (target : String) (rhs : Expr)
  | exprStmt (e : Expr)
  | subscriptAssign (obj index rhs : Expr)
  | delStmt (e : Expr)
  | tryExcept (body handler : Stmt)
  | whileLoop (cond : Expr) (body : Stmt)
  | ifElse (cond : Expr) (thn els : Stmt)
  | forLoop (target : String) (iter : Expr) (body : Stmt)
  | seqStmt (a b : Stmt)

/-- A script is its statements, each tagged with its source line number. -/
abbrev Script := List (Nat × Stmt)

/-- src/gensim/gs_train_model.py, transcribed statement by statement. -/
def gsTrainModelStmts : Script :=
  [ (1, .fromImport "gensim.test.utils" ["common_texts"]),
    (2, .fromImport "gensim.models" ["Word2Vec"]),
    (4, .assign "model"
          (.call (.name "Word2Vec") [.name "common_texts"]
            [("size", .numLit 100), ("window", .numLit 5),
             ("min_count", .numLit 1), ("workers", .numLit 4)])),
    (5, .assign "word_vectors" (.attr (.name "model") "wv")) ]

/-- The print statement `print("{}: {:.4f}".format(*result[0]))` used at
lines 7, 11 and 22 of gs_similarity.py (braces written as hex escapes). -/
def printFirstResult : Stmt :=
  .exprStmt (.call (.name "print")
    [.call (.attr (.strLit "\x7b\x7d: \x7b:.4f\x7d") "format")
      [.star (.subscript (.name "result") (.numLit 0))] []] [])

/-- src/gensim/gs_similarity.py, transcribed statement by statement with
its source line numbers. -/
def gsSimilarityStmts : Script :=
  [ (2, .importAs "gensim.downloader" "api"),
    (4, .assign "word_vectors"
          (.call (.attr (.name "api") "load")
            [.strLit "glove-wiki-gigaword-100"] [])),
    (6, .assign "result"
          (.call (.attr (.name "word_vectors") "most_similar") []
            [("positive", .listLit [.strLit "woman", .strLit "king"]),
             ("negative", .listLit [.strLit "man"])])),
    (7, printFirstResult),
    (10, .assign "result"
          (.call (.attr (.name "word_vectors") "most_similar_cosmul") []
            [("positive", .listLit [.strLit "woman", .strLit "king"]),
             ("negative", .listLit [.strLit "man"])])),
    (11, printFirstResult),
    (14, .exprStmt (.call (.name "print")
          [.call (.attr (.name "word_vectors") "doesnt_match")
            [.call (.attr (.strLit "breakfast cereal dinner lunch") "split") [] []]
            []] [])),
    (17, .assign "similarity"
          (.call (.attr (.name "word_vectors") "similarity")
            [.strLit "woman", .strLit "man"] [])),
    (18, .exprStmt (.binop ">" (.name "similarity") (.numLit (8/10)))),
    (21, .assign "result"
          (.call (.attr (.name "word_vectors") "similar_by_word")
            [.strLit "cat"] [])),
    (22, printFirstResult),
    (25, .assign "sentence_obama"
          (.call (.attr (.call (.attr
            (.strLit "Obama speaks to the media in Illinois") "lower") [] [])
            "split") [] [])),
    (26, .assign "sentence_president"
          (.call (.attr (.call (.attr
            (.strLit "The president greets the press in Chicago") "lower") [] [])
            "split") [] [])),
    (28, .assign "similarity"
          (.call (.attr (.name "word_vectors") "wmdistance")
            [.name "sentence_obama", .name "sentence_president"] [])),
    (29, .exprStmt (.call (.name "print")
          [.call (.attr (.strLit "\x7b:.4f\x7d") "format")
            [.name "similarity"] []] [])),
    (32, .assign "distance"
          (.call (.attr (.name "word_vectors") "distance")
            [.strLit "media", .strLit "media"] [])),
    (33, .exprStmt (.call (.name "print")
          [.call (.attr (.strLit "\x7b:.1f\x7d") "format")
            [.name "distance"] []] [])),
    (36, .assign "sim"
          (.call (.attr (.name "word_vectors") "n_similarity")
            [.listLit [.strLit "sushi", .strLit "shop"],
             .listLit [.strLit "japanese", .strLit "restaurant"]] [])),
    (37, .exprStmt (.call (.name "print")
          [.call (.attr (.strLit "\x7b:.4f\x7d") "format")
            [.name "sim"] []] [])),
    (40, .assign "vector" (.subscript (.name "word_vectors") (.strLit "computer"))),
    (41, .exprStmt (.attr (.name "vector") "shape")),
    (44, .assign "vector"
          (.call (.attr (.attr (.name "word_vectors") "wv") "word_vec")
            [.strLit "office"] [("use_norm", .boolLit true)])),
    (45, .exprStmt (.attr (.name "vector") "shape")),
    (50, .fromImport "gensim.test.utils" ["datapath"]),
    (52, .assign "similarities"
          (.call (.attr (.attr (.name "model") "wv") "evaluate_word_pairs")
            [.call (.name "datapath") [.strLit "wordsim353.tsv"] []] [])),
    (56, .assign "analogy_scores"
          (.call (.attr (.attr (.name "model") "wv") "evaluate_word_analogies")
            [.call (.name "datapath") [.strLit "questions-words.txt"] []] [])) ]

/-- src/gensim/gensim_exm.py consists of a single module docstring and no
executable statements beyond that constant string expression; it defines
no names, performs no calls, and is omitted from the statement list. -/
def gensimExmStmts : Script := []

/-- All three source files of the repository. -/
def allScripts : List Script := [gsSimilarityStmts, gsTrainModelStmts, gensimExmStmts]

/-! ## Syntactic analyses -/

mutual

/-- Every subexpression of an expression, the expression itself included,
in pre-order (receivers before arguments, matching evaluation order). -/
def Expr.subexprs : Expr → List Expr
  | .name s => [.name s]
  | .strLit s => [.strLit s]
  | .numLit q => [.numLit q]
  | .boolLit b => [.boolLit b]
  | .listLit es => .listLit es :: subexprsList es
  | .attr e f => .attr e f :: e.subexprs
  | .call f args kw => .call f args kw :: (f.subexprs ++ subexprsList args ++ subexprsKw kw)
  | .subscript e i => .subscript e i :: (e.subexprs ++ i.subexprs)
  | .binop op l r => .binop op l r :: (l.subexprs ++ r.subexprs)
  | .star e => .star e :: e.subexprs

def subexprsList : List Expr → List Expr
  | [] => []
  | e :: es => e.subexprs ++ subexprsList es

def subexprsKw : List (String × Expr) → List Expr
  | [] => []
  | (_, e) :: kw => e.subexprs ++ subexprsKw kw

end

/-- The top-level expressions of a statement (recursing into the bodies
of compound statements). -/
def Stmt.exprs : Stmt → List Expr
  | .importAs _ _ => []
  | .fromImport _ _ => []
  | .assign _ e => [e]
  | .exprStmt e => [e]
  | .subscriptAssign o i e => [o, i, e]
  | .delStmt e => [e]
  | .tryExcept b h => b.exprs ++ h.exprs
  | .whileLoop c b => c :: b.exprs
  | .ifElse c t e => c :: (t.exprs ++ e.exprs)
  | .forLoop _ it b => it :: b.exprs
  | .seqStmt a b => a.exprs ++ b.exprs

/-- All subexpressions occurring anywhere in a statement. -/
def Stmt.subexprs (s : Stmt) : List Expr :=
  (s.exprs.map Expr.subexprs).flatten

/-- The variable names an expression references (its free names), in
evaluation order. -/
def Expr.refs (e : Expr) : List String :=
  e.subexprs.filterMap fun se =>
    match se with
    | .name s => some s
    | _ => none

/-- The names a statement references before it binds anything. -/
def Stmt.refs (s : Stmt) : List String :=
  (s.exprs.map Expr.refs).flatten

/-- The names a statement binds (assignment targets and imports). -/
def Stmt.targets : Stmt → List String
  | .importAs _ a => [a]
  | .fromImport _ ns => ns
  | .assign t _ => [t]
  | .exprStmt _ => []
  | .subscriptAssign _ _ _ => []
  | .delStmt _ => []
  | .tryExcept b h => b.targets ++ h.targets
  | .whileLoop _ b => b.targets
  | .ifElse _ t e => t.targets ++ e.targets
  | .forLoop x _ b => x :: b.targets
  | .seqStmt a b => a.targets ++ b.targets

/-- Every name a script binds. -/
def scriptTargets (ss : Script) : List String :=
  (ss.map fun p => p.2.targets).flatten

/-- Scan a script in order with an environment of defined names: the
first reference to a name that is neither already defined nor a builtin,
returned with its source line.  Mirrors Python's NameError behaviour for
straight-line module code. -/
def firstUndefinedRef : Script → List String → Option (Nat × String)
  | [], _ => none
  | (ln, s) :: rest, defined =>
    match s.refs.find? (fun r => !(defined.contains r)) with
    | some r => some (ln, r)
    | none => firstUndefinedRef rest (s.targets ++ defined)

/-- The builtin names available to every Python module, restricted to the
one builtin these scripts use. -/
def pyBuiltins : List String := ["print"]

/-- Does the statement contain a `try`/`except` form anywhere? -/
def Stmt.hasTry : Stmt → Bool
  | .tryExcept _ _ => true
  | .whileLoop _ b => b.hasTry
  | .ifElse _ t e => t.hasTry || e.hasTry
  | .forLoop _ _ b => b.hasTry
  | .seqStmt a b => a.hasTry || b.hasTry
  | _ => false

/-- Is the statement one of the simple straight-line forms (import,
from-import, assignment, expression statement)? -/
def Stmt.straightLine : Stmt → Bool
  | .importAs _ _ => true
  | .fromImport _ _ => true
  | .assign _ _ => true
  | .exprStmt _ => true
  | _ => false

/-- Is the statement a mutation form (subscript assignment or `del`)? -/
def Stmt.isMutation : Stmt → Bool
  | .subscriptAssign _ _ _ => true
  | .delStmt _ => true
  | .tryExcept b h => b.isMutation || h.isMutation
  | .whileLoop _ b => b.isMutation
  | .ifElse _ t e => t.isMutation || e.isMutation
  | .forLoop _ _ b => b.isMutation
  | .seqStmt a b => a.isMutation || b.isMutation
  | _ => false

/-- Is this expression the mapping itself (`word_vectors`, possibly
through its self-referential `wv` alias)? -/
def isWVReceiver : Expr → Bool
  | .name "word_vectors" => true
  | .attr (.name "word_vectors") "wv" => true
  | _ => false

/-- Is this expression a query against the mapping: a method call whose
receiver is the mapping, or a subscript vector lookup on it? -/
def isWVQueryExpr : Expr → Bool
  | .call (.attr r _) _ _ => isWVReceiver r
  | .subscript (.name "word_vectors") _ => true
  | _ => false

/-- Does the statement contain a query against the mapping? -/
def Stmt.hasWVQuery (s : Stmt) : Bool :=
  s.subexprs.any isWVQueryExpr

/-- The names of the methods the script calls on the mapping. -/
def wvMethodNames (ss : Script) : List String :=
  (ss.map fun p => p.2.subexprs.filterMap fun se =>
    match se with
    | .call (.attr r m) _ _ => if isWVReceiver r then some m else none
    | _ => none).flatten

/-- The names of all methods called anywhere in the script. -/
def allMethodNames (ss : Script) : List String :=
  (ss.map fun p => p.2.subexprs.filterMap fun se =>
    match se with
    | .call (.attr _ m) _ _ => some m
    | _ => none).flatten

/-- Lines whose statement contains the load call (`api.load(...)`) or the
train call (`Word2Vec(...)`). -/
def loadOrTrainLines (ss : Script) : List Nat :=
  (ss.filter fun p => p.2.subexprs.any fun se =>
    match se with
    | .call (.attr (.name "api") "load") _ _ => true
    | .call (.name "Word2Vec") _ _ => true
    | _ => false).map Prod.fst

/-- Lines whose statement queries the mapping. -/
def queryLines (ss : Script) : List Nat :=
  (ss.filter fun p => p.2.hasWVQuery).map Prod.fst

/-- Is the statement a call of the `print` builtin? -/
def Stmt.isPrint : Stmt → Bool
  | .exprStmt (.call (.name "print") _ _) => true
  | _ => false

/-- Does the statement print something that references the name `x`? -/
def Stmt.printsName (s : Stmt) (x : String) : Bool :=
  match s with
  | .exprStmt (.call (.name "print") args _) =>
      args.any fun a => a.refs.contains x
  | _ => false

/-- Walking forward from a query that bound `x`: is `x` printed before it
is rebound (if it is rebound first, or never printed, the query's result
is never printed)? -/
def printedBeforeRebind : Script → String → Bool
  | [], _ => false
  | (_, s) :: rest, x =>
    if s.printsName x then true
    else if s.targets.contains x then false
    else printedBeforeRebind rest x

/-- Is the result of every mapping query in the script printed?  A query
appearing directly inside a `print` call is printed; a query assigned to
a name is printed iff that name is printed before being rebound; a bare
query expression is discarded. -/
def everyQueryResultPrinted : Script → Bool
  | [] => true
  | (_, s) :: rest =>
    (if s.hasWVQuery then
      match s with
      | .exprStmt (.call (.name "print") _ _) => true
      | .assign t _ => printedBeforeRebind rest t
      | _ => false
    else true) && everyQueryResultPrinted rest

/-- The lines of mapping queries whose result is never printed. -/
def unprintedQueryLines : Script → List Nat
  | [] => []
  | (ln, s) :: rest =>
    (if s.hasWVQuery then
      match s with
      | .exprStmt (.call (.name "print") _ _) => []
      | .assign t _ => if printedBeforeRebind rest t then [] else [ln]
      | _ => [ln]
    else []) ++ unprintedQueryLines rest

/-- Every `Word2Vec(...)` constructor call in the script, projected to
(number of positional arguments, names of the positional arguments that
are plain names, keyword arguments with their numeric values). -/
def word2VecCalls (ss : Script) : List (Nat × List String × List (String × Option ℚ)) :=
  (ss.map fun p => p.2.subexprs.filterMap fun se =>
    match se with
    | .call (.name "Word2Vec") args kw =>
        some (args.length,
              args.filterMap (fun a => match a with
                | .name s => some s
                | _ => none),
              kw.map (fun q => (q.1, match q.2 with
                | .numLit n => some n
                | _ => none)))
    | _ => none).flatten

/-- Every pair (method name, path literal) where the script calls a
method whose sole argument is `datapath('<path>')`. -/
def datapathConsumers (ss : Script) : List (String × String) :=
  (ss.map fun p => p.2.subexprs.filterMap fun se =>
    match se with
    | .call (.attr _ m) [.call (.name "datapath") [.strLit s] []] [] => some (m, s)
    | _ => none).flatten

/-- Every string literal passed to `datapath` anywhere in the script. -/
def datapathArgs (ss : Script) : List String :=
  (ss.map fun p => p.2.subexprs.filterMap fun se =>
    match se with
    | .call (.name "datapath") [.strLit s] [] => some s
    | _ => none).flatten

/-- The modules a script imports. -/
def importedModules (ss : Script) : List String :=
  ss.filterMap fun p =>
    match p.2 with
    | .importAs m _ => some m
    | .fromImport m _ => some m
    | _ => none

/-- The names of the functions or methods called with keyword argument
`x` anywhere in the script. -/
def callsWithKwarg (x : String) (ss : Script) : List String :=
  (ss.map fun p => p.2.subexprs.filterMap fun se =>
    match se with
    | .call fn _ kw =>
        if (kw.map Prod.fst).contains x then
          match fn with
          | .name f => some f
          | .attr _ m => some m
          | _ => none
        else none
    | _ => none).flatten

/-- Lines whose statement calls one of the two evaluation methods. -/
def evaluationCallLines (ss : Script) : List Nat :=
  (ss.filter fun p => p.2.subexprs.any fun se =>
    match se with
    | .call (.attr _ "evaluate_word_pairs") _ _ => true
    | .call (.attr _ "evaluate_word_analogies") _ _ => true
    | _ => false).map Prod.fst

/-! ## The key-to-vector mapping

Modelled from the spec: the external library's "KeyedVectors" structure,
"essentially a mapping between entities and vectors", where "every key
maps to exactly one vector of uniform dimensionality across the whole
mapping; keys are unique".  The library's own code is not part of the
repository, so the mapping is modelled as a finite association list
from string keys to rational vectors with a configured dimensionality. -/
structure KeyedVectors where
  dim : ℕ
  entries : List (String × List ℚ)

/-- Modelled from the spec: well-formedness of the mapping — unique keys,
every stored vector of the configured dimensionality, and (so that cosine
similarity is defined on it) every stored vector nonzero. -/
def KeyedVectors.WF (kv : KeyedVectors) : Prop :=
  (kv.entries.map Prod.fst).Nodup ∧
    ∀ p ∈ kv.entries, p.2.length = kv.dim ∧ ∃ x ∈ p.2, x ≠ 0

/-- Modelled from the spec: vector lookup by key (`word_vectors[key]`). -/
def KeyedVectors.lookup (kv : KeyedVectors) (w : String) : Option (List ℚ) :=
  (kv.entries.find? fun p => p.1 == w).map Prod.snd

/-- Dot product of two vectors (over the overlap of their lengths). -/
def dot (u v : List ℚ) : ℚ := (List.zipWith (· * ·) u v).sum

/-- Modelled from the spec: cosine similarity of two vectors, the
similarity measure behind the library's `similarity` query. -/
noncomputable def cosSim (u v : List ℚ) : ℝ :=
  (dot u v : ℝ) / (Real.sqrt (dot u u : ℚ) * Real.sqrt (dot v v : ℚ))

/-- Modelled from the spec: pairwise similarity of two keys of the
mapping (0 when a key is absent). -/
noncomputable def KeyedVectors.similarity (kv : KeyedVectors) (a b : String) : ℝ :=
  match kv.lookup a, kv.lookup b with
  | some u, some v => cosSim u v
  | _, _ => 0

/-- Modelled from the spec: pairwise distance of two keys, one minus
their similarity (the library's `distance` query). -/
noncomputable def KeyedVectors.dist (kv : KeyedVectors) (a b : String) : ℝ :=
  1 - kv.similarity a b

/-! ## Runtime values and the abstract library interface -/

/-- Runtime values: literals, lists, a loaded mapping, imported modules
and names, and Python's `None`. -/
inductive Val where
  | str (s : String)
  | rat (q : ℚ)
  | bool (b : Bool)
  | listv (vs : List Val)
  | pyNone
  | module (m : String)
  | imported (m n : String)
  | kvv (kv : KeyedVectors)

/-- An operation delegated to the external library (or to the Python
runtime): a call (a method call being attribute access followed by a
call, as in Python), attribute access, subscripting, a binary
operation, or argument splatting. -/
inductive LibOp where
  | func (fn : Val) (args : List Val) (kwargs : List (String × Val))
  | getattr (v : Val) (f : String)
  | getitem (v i : Val)
  | binop (op : String) (l r : Val)
  | splat (v : Val)

/-- Modelled from the spec: an interpretation of the external library's
operations.  The spec describes every query as a read-only function of
the mapping and the arguments, so an interpretation is a pure function;
the semantics below is parameterised over an arbitrary one. -/
def LibInterp := LibOp → Val

/-- A variable environment (most recent binding first). -/
abbrev Env := List (String × Val)

/-- Look a name up in the environment. -/
def lookupEnv : Env → String → Option Val
  | [], _ => none
  | (k, v) :: rest, x => if k == x then some v else lookupEnv rest x

mutual

/-- Evaluate an expression: names are looked up in the environment and
every other non-literal operation is delegated to the library
interpretation (a method call `e.m(args)` evaluating, as in Python, as
attribute access followed by a call).  The only failure is an
undefined name. -/
def evalE (lib : LibInterp) (env : Env) : Expr → Except String Val
  | .name s =>
    match lookupEnv env s with
    | some v => .ok v
    | none => .error s
  | .strLit s => .ok (.str s)
  | .numLit q => .ok (.rat q)
  | .boolLit b => .ok (.bool b)
  | .listLit es => do
    let vs ← evalList lib env es
    .ok (.listv vs)
  | .attr e f => do
    let v ← evalE lib env e
    .ok (lib (.getattr v f))
  | .call fn args kw => do
    let f ← evalE lib env fn
    let as_ ← evalList lib env args
    let ks ← evalKw lib env kw
    .ok (lib (.func f as_ ks))
  | .subscript e i => do
    let v ← evalE lib env e
    let vi ← evalE lib env i
    .ok (lib (.getitem v vi))
  | .binop op l r => do
    let vl ← evalE lib env l
    let vr ← evalE lib env r
    .ok (lib (.binop op vl vr))
  | .star e => do
    let v ← evalE lib env e
    .ok (lib (.splat v))

def evalList (lib : LibInterp) (env : Env) : List Expr → Except String (List Val)
  | [] => .ok []
  | e :: es => do
    let v ← evalE lib env e
    let vs ← evalList lib env es
    .ok (v :: vs)

def evalKw (lib : LibInterp) (env : Env) : List (String × Expr) → Except String (List (String × Val))
  | [] => .ok []
  | (k, e) :: kw => do
    let v ← evalE lib env e
    let vs ← evalKw lib env kw
    .ok ((k, v) :: vs)

end

/-- How a run of a script can fail: a NameError at a line, or a
statement form outside the straight-line fragment the scripts use. -/
inductive RunErr where
  | nameError (line : Nat) (n : String)
  | unhandled (line : Nat)

/-- If the expression is a call of the `print` builtin (no keywords),
its argument list. -/
def printArgs : Expr → Option (List Expr)
  | .call (.name "print") args [] => some args
  | _ => none

/-- Run a script: execute its statements in order, threading the
environment and collecting the values passed to `print`.  Execution
stops at the first NameError, as the spec's failure model requires. -/
def run (lib : LibInterp) : Env → Script → Except RunErr (Env × List Val)
  | env, [] => .ok (env, [])
  | env, (_, .importAs m a) :: rest => run lib ((a, .module m) :: env) rest
  | env, (_, .fromImport m ns) :: rest =>
    run lib ((ns.map fun n => (n, Val.imported m n)) ++ env) rest
  | env, (ln, .assign t e) :: rest =>
    match evalE lib env e with
    | .error n => .error (.nameError ln n)
    | .ok v => run lib ((t, v) :: env) rest
  | env, (ln, .exprStmt e) :: rest =>
    match printArgs e with
    | some args =>
      match evalList lib env args with
      | .error n => .error (.nameError ln n)
      | .ok vs =>
        match run lib env rest with
        | .error er => .error er
        | .ok (env', out) => .ok (env', vs ++ out)
    | none =>
      match evalE lib env e with
      | .error n => .error (.nameError ln n)
      | .ok _ => run lib env rest
  | _, (ln, _) :: _ => .error (.unhandled ln)

/-- Big-step execution of a script, as a derivation relation: from an
environment, a script executes to a final environment and the list of
printed values.  There are rules only for the straight-line statement
forms the scripts use; expression evaluation is by `evalE`. -/
inductive Exec (lib : LibInterp) : Env → Script → Env → List Val → Prop where
  | nil (env : Env) : Exec lib env [] env []
  | importAs {env rest env' out} (ln m a) :
      Exec lib ((a, .module m) :: env) rest env' out →
      Exec lib env ((ln, .importAs m a) :: rest) env' out
  | fromImport {env rest env' out} (ln m ns) :
      Exec lib ((ns.map fun n => (n, Val.imported m n)) ++ env) rest env' out →
      Exec lib env ((ln, .fromImport m ns) :: rest) env' out
  | assign {env rest env' out v} (ln t e) :
      evalE lib env e = .ok v →
      Exec lib ((t, v) :: env) rest env' out →
      Exec lib env ((ln, .assign t e) :: rest) env' out
  | printStmt {env rest env' out args vs} (ln e) :
      printArgs e = some args →
      evalList lib env args = .ok vs →
      Exec lib env rest env' out →
      Exec lib env ((ln, .exprStmt e) :: rest) env' (vs ++ out)
  | exprStmt {env rest env' out v} (ln e) :
      printArgs e = none →
      evalE lib env e = .ok v →
      Exec lib env rest env' out →
      Exec lib env ((ln, .exprStmt e) :: rest) env' out

/-- The query section of gs_similarity.py: the statements after the load
call and before the dead evaluation lines (lines 6-45). -/
def gsSimilarityQueryStmts : Script :=
  (gsSimilarityStmts.drop 2).take 21

/-- Did the run succeed? -/
def runOk : Except RunErr (Env × List Val) → Bool
  | .ok _ => true
  | .error _ => false

/-- A concrete well-formed mapping of dimensionality 100, used to
instantiate the theorems below at a concrete input. -/
def kvTest : KeyedVectors :=
  ⟨100, [("computer", List.replicate 100 (1 : ℚ)),
         ("media", (1 : ℚ) :: List.replicate 99 (0 : ℚ))]⟩

/-- A concrete library interpretation (every operation returns `None`). -/
def libTest : LibInterp := fun _ => Val.pyNone

/-- A concrete starting environment holding the loaded mapping. -/
def envTest : Env := [("word_vectors", Val.kvv kvTest)]

/-! ## Metatheory of the script semantics -/

/-- Big-step execution is deterministic: one environment and script
admit at most one final environment and one printed output. -/
theorem Exec.deterministic {lib : LibInterp} {env ss env₁ out₁}
    (h₁ : Exec lib env ss env₁ out₁) :
    ∀ {env₂ out₂}, Exec lib env ss env₂ out₂ → env₁ = env₂ ∧ out₁ = out₂ := by
  induction h₁ with
  | nil env => intro env₂ out₂ h₂; cases h₂; exact ⟨rfl, rfl⟩
  | importAs ln m a _ ih =>
    intro env₂ out₂ h₂
    cases h₂ with
    | importAs _ _ _ h₂' => exact ih h₂'
  | fromImport ln m ns _ ih =>
    intro env₂ out₂ h₂
    cases h₂ with
    | fromImport _ _ _ h₂' => exact ih h₂'
  | assign ln t e hv _ ih =>
    intro env₂ out₂ h₂
    cases h₂ with
    | assign _ _ _ hv₂ h₂' =>
      cases hv.symm.trans hv₂
      exact ih h₂'
  | printStmt ln e hp hvs _ ih =>
    intro env₂ out₂ h₂
    cases h₂ with
    | printStmt _ _ hp₂ hvs₂ h₂' =>
      cases hp.symm.trans hp₂
      cases hvs.symm.trans hvs₂
      obtain ⟨he, ho⟩ := ih h₂'
      exact ⟨he, by rw [ho]⟩
    | exprStmt _ _ hp₂ _ _ => simp [hp] at hp₂
  | exprStmt ln e hp hv _ ih =>
    intro env₂ out₂ h₂
    cases h₂ with
    | printStmt _ _ hp₂ _ _ => simp [hp] at hp₂
    | exprStmt _ _ _ hv₂ h₂' =>
      cases hv.symm.trans hv₂
      exact ih h₂'

/-- The interpreter is sound for the big-step relation: a successful run
yields a derivation. -/
theorem run_sound {lib : LibInterp} :
    ∀ {ss : Script} {env env' : Env} {out : List Val},
      run lib env ss = .ok (env', out) → Exec lib env ss env' out := by
  intro ss
  induction ss with
  | nil =>
    intro env env' out h
    simp only [run, Except.ok.injEq, Prod.mk.injEq] at h
    obtain ⟨rfl, rfl⟩ := h
    exact .nil env
  | cons p rest ih =>
    obtain ⟨ln, s⟩ := p
    intro env env' out h
    cases s with
    | importAs m a =>
      rw [run] at h
      exact .importAs ln m a (ih h)
    | fromImport m ns =>
      rw [run] at h
      exact .fromImport ln m ns (ih h)
    | assign t e =>
      rw [run] at h
      cases hv : evalE lib env e with
      | error n => rw [hv] at h; cases h
      | ok v =>
        rw [hv] at h
        exact .assign ln t e hv (ih h)
    | exprStmt e =>
      rw [run] at h
      split at h
      next args hp =>
        split at h
        next n hvs => cases h
        next vs hvs =>
          split at h
          next er hr => cases h
          next renv rout hr =>
            simp only [Except.ok.injEq, Prod.mk.injEq] at h
            obtain ⟨rfl, rfl⟩ := h
            exact .printStmt ln e hp hvs (ih hr)
      next hp =>
        split at h
        next n hv => cases h
        next v hv => exact .exprStmt ln e hp hv (ih h)
    | subscriptAssign o i v => simp [run] at h
    | delStmt e => simp [run] at h
    | tryExcept b hdl => simp [run] at h
    | whileLoop c b => simp [run] at h
    | ifElse c t e => simp [run] at h
    | forLoop x it b => simp [run] at h
    | seqStmt a b => simp [run] at h

/-- A block of fresh bindings whose keys avoid `x` does not change what
`x` is bound to. -/
theorem lookupEnv_append_of_not_mem {ps env : Env} {x : String}
    (h : ∀ p ∈ ps, p.1 ≠ x) : lookupEnv (ps ++ env) x = lookupEnv env x := by
  induction ps with
  | nil => rfl
  | cons p ps ih =>
    obtain ⟨k, v⟩ := p
    have hk : k ≠ x := h (k, v) (List.mem_cons_self _ _)
    simp only [List.cons_append, lookupEnv, beq_iff_eq, if_neg hk]
    exact ih fun q hq => h q (List.mem_cons_of_mem _ hq)

/-- Frame property of execution: a name the script never binds keeps its
initial binding throughout a run. -/
theorem Exec.frame {lib : LibInterp} {env ss env' out}
    (h : Exec lib env ss env' out) :
    ∀ x, x ∉ scriptTargets ss → lookupEnv env' x = lookupEnv env x := by
  induction h with
  | nil env => intro x _; rfl
  | importAs ln m a _ ih =>
    intro x hx
    simp only [scriptTargets, List.map_cons, Stmt.targets, List.flatten_cons,
      List.mem_append, List.mem_singleton, not_or] at hx
    rw [ih x (by simpa [scriptTargets] using hx.2)]
    simp only [lookupEnv, beq_iff_eq, if_neg (Ne.symm (by simpa using hx.1))]
  | fromImport ln m ns _ ih =>
    intro x hx
    simp only [scriptTargets, List.map_cons, Stmt.targets, List.flatten_cons,
      List.mem_append, not_or] at hx
    rw [ih x (by simpa [scriptTargets] using hx.2)]
    exact lookupEnv_append_of_not_mem fun p hp => by
      obtain ⟨n, hn, rfl⟩ := List.mem_map.1 hp
      exact fun hEq => hx.1 (hEq ▸ hn)
  | assign ln t e hv _ ih =>
    intro x hx
    simp only [scriptTargets, List.map_cons, Stmt.targets, List.flatten_cons,
      List.mem_append, List.mem_singleton, not_or] at hx
    rw [ih x (by simpa [scriptTargets] using hx.2)]
    simp only [lookupEnv, beq_iff_eq, if_neg (Ne.symm (by simpa using hx.1))]
  | printStmt ln e hp hvs _ ih =>
    intro x hx
    simp only [scriptTargets, List.map_cons, Stmt.targets, List.flatten_cons,
      List.mem_append] at hx
    exact ih x (by simpa [scriptTargets] using fun hmem => hx (Or.inr hmem))
  | exprStmt ln e hp hv _ ih =>
    intro x hx
    simp only [scriptTargets, List.map_cons, Stmt.targets, List.flatten_cons,
      List.mem_append] at hx
    exact ih x (by simpa [scriptTargets] using fun hmem => hx (Or.inr hmem))

/-! ## Vector arithmetic of the modelled mapping -/

theorem dot_cons (x y : ℚ) (u v : List ℚ) :
    dot (x :: u) (y :: v) = x * y + dot u v := by
  simp [dot]

theorem dot_nil_left (v : List ℚ) : dot [] v = 0 := by simp [dot]

theorem dot_nil_right (u : List ℚ) : dot u [] = 0 := by simp [dot]

theorem dot_self_nonneg (v : List ℚ) : 0 ≤ dot v v := by
  induction v with
  | nil => simp [dot_nil_left]
  | cons x v ih => rw [dot_cons]; nlinarith [mul_self_nonneg x]

theorem dot_self_pos {v : List ℚ} (h : ∃ x ∈ v, x ≠ 0) : 0 < dot v v := by
  induction v with
  | nil => simp at h
  | cons x v ih =>
    rw [dot_cons]
    obtain ⟨y, hy, hy0⟩ := h
    rcases List.mem_cons.1 hy with rfl | hmem
    · nlinarith [mul_self_pos.2 hy0, dot_self_nonneg v]
    · nlinarith [ih ⟨y, hmem, hy0⟩, mul_self_nonneg x]

/-- Cauchy-Schwarz for the list dot product. -/
theorem dot_sq_le (u v : List ℚ) : dot u v ^ 2 ≤ dot u u * dot v v := by
  induction u generalizing v with
  | nil => simp [dot_nil_left]
  | cons x u ih =>
    cases v with
    | nil => simp [dot_nil_right]
    | cons y v =>
      have h1 := ih v
      have h2 := dot_self_nonneg u
      have h3 := dot_self_nonneg v
      rw [dot_cons, dot_cons, dot_cons]
      have key : 2 * (x * y) * dot u v ≤ x ^ 2 * dot v v + y ^ 2 * dot u u := by
        rcases eq_or_lt_of_le h3 with hB | hB
        · have hS : dot u v = 0 := by
            have h1' : dot u v ^ 2 ≤ 0 := by nlinarith [h1]
            exact (pow_eq_zero_iff two_ne_zero).1 (le_antisymm h1' (sq_nonneg _))
          rw [hS, ← hB]
          nlinarith [mul_nonneg (sq_nonneg y) h2]
        · nlinarith [sq_nonneg (x * dot v v - y * dot u v),
            mul_nonneg (sq_nonneg y) (sub_nonneg.2 h1), hB]
      nlinarith [key, h1]

theorem cosSim_self {v : List ℚ} (h : ∃ x ∈ v, x ≠ 0) : cosSim v v = 1 := by
  have hd : 0 < dot v v := dot_self_pos h
  have hdR : (0 : ℝ) < ((dot v v : ℚ) : ℝ) := by exact_mod_cast hd
  unfold cosSim
  rw [Real.mul_self_sqrt hdR.le]
  exact div_self (ne_of_gt hdR)

theorem cosSim_le_one (u v : List ℚ) : cosSim u v ≤ 1 := by
  have ha : (0 : ℝ) ≤ ((dot u u : ℚ) : ℝ) := by exact_mod_cast dot_self_nonneg u
  have hb : (0 : ℝ) ≤ ((dot v v : ℚ) : ℝ) := by exact_mod_cast dot_self_nonneg v
  have hcs : ((dot u v : ℚ) : ℝ) ^ 2 ≤ ((dot u u : ℚ) : ℝ) * ((dot v v : ℚ) : ℝ) := by
    exact_mod_cast dot_sq_le u v
  unfold cosSim
  rcases eq_or_lt_of_le
      (mul_nonneg (Real.sqrt_nonneg ((dot u u : ℚ) : ℝ)) (Real.sqrt_nonneg ((dot v v : ℚ) : ℝ)))
    with h0 | hpos
  · rw [← h0, div_zero]; norm_num
  · rw [div_le_one hpos]
    calc ((dot u v : ℚ) : ℝ) ≤ |((dot u v : ℚ) : ℝ)| := le_abs_self _
      _ = Real.sqrt (((dot u v : ℚ) : ℝ) ^ 2) := (Real.sqrt_sq_eq_abs _).symm
      _ ≤ Real.sqrt (((dot u u : ℚ) : ℝ) * ((dot v v : ℚ) : ℝ)) := Real.sqrt_le_sqrt hcs
      _ = Real.sqrt ((dot u u : ℚ) : ℝ) * Real.sqrt ((dot v v : ℚ) : ℝ) :=
          Real.sqrt_mul ha _

/-- In a list with pairwise distinct keys, a key determines its value. -/
theorem nodup_key_unique {l : List (String × List ℚ)}
    (hnd : (l.map Prod.fst).Nodup) {w : String} {v₁ v₂ : List ℚ}
    (h1 : (w, v₁) ∈ l) (h2 : (w, v₂) ∈ l) : v₁ = v₂ := by
  induction l with
  | nil => cases h1
  | cons p l ih =>
    rw [List.map_cons, List.nodup_cons] at hnd
    rcases List.mem_cons.1 h1 with rfl | h1'
    · rcases List.mem_cons.1 h2 with h | h2'
      · exact (Prod.mk.injEq _ _ _ _ ▸ h.symm).2
      · exact absurd (List.mem_map_of_mem Prod.fst h2') hnd.1
    · rcases List.mem_cons.1 h2 with rfl | h2'
      · exact absurd (List.mem_map_of_mem Prod.fst h1') hnd.1
      · exact ih hnd.2 h1' h2'

/-- A successful lookup returns a stored entry. -/
theorem lookup_mem {kv : KeyedVectors} {w : String} {v : List ℚ}
    (h : kv.lookup w = some v) : (w, v) ∈ kv.entries := by
  unfold KeyedVectors.lookup at h
  cases hf : kv.entries.find? fun p => p.1 == w with
  | none => rw [hf] at h; cases h
  | some p =>
    rw [hf] at h
    obtain ⟨k, u⟩ := p
    have hmem := List.mem_of_find?_eq_some hf
    have hkey : k = w := by
      have := List.find?_some hf
      simpa using this
    cases h
    exact hkey ▸ hmem

/-! ## Shared concrete execution of the query section -/

/-- The query section of gs_similarity.py runs to completion from the
concrete test environment under the concrete test library. -/
theorem exec_test : ∃ env' out, Exec libTest envTest gsSimilarityQueryStmts env' out := by
  rcases hr : run libTest envTest gsSimilarityQueryStmts with er | r
  · exfalso
    have hok : runOk (run libTest envTest gsSimilarityQueryStmts) = true := by decide
    rw [hr] at hok
    simp [runOk] at hok
  · obtain ⟨env', out⟩ := r
    exact ⟨env', out, run_sound hr⟩

/-! ## The claims -/

/-- C1: the repository's own code contains no try/except or recovery
path anywhere; but the claim that every failure raised while a script
runs originates in the external library fails on the code: scanning
gs_similarity.py in order with Python's name-resolution rules, the first
reference to a name that is neither previously bound nor a builtin is
the reference to `model` at line 52, so the script's own code raises a
NameError there (the code contradicts the repository's own documentation
module, whose docstring defines `model` before using `model.wv`). -/
theorem c1_no_error_handling_and_own_name_error :
    (allScripts.all fun ss => ss.all fun p => !p.2.hasTry) = true ∧
    firstUndefinedRef gsSimilarityStmts pyBuiltins = some (52, "model") :=
  ⟨by decide, by decide⟩

/-- C2, counterexample: gs_similarity.py contains mapping queries (at
the listed lines), and it is not the case that every query's result is
printed: the `similarity` query at line 17 is rebound at line 28 before
any print uses it, and the vector lookups at lines 40 and 44 are never
printed at all. -/
theorem c2_counterexample_unprinted_query_results :
    queryLines gsSimilarityStmts = [6, 10, 14, 17, 21, 28, 32, 36, 40, 44] ∧
    everyQueryResultPrinted gsSimilarityStmts = false ∧
    unprintedQueryLines gsSimilarityStmts = [17, 40, 44] :=
  ⟨by decide, by decide, by decide⟩

/-- C2, amended: each script performs a single load-or-train call (line
4 in both scripts) which precedes every query against the resulting
mapping; the queries at lines 6, 10, 14, 21, 28, 32 and 36 have their
results printed, while the `similarity` query at line 17 and the vector
lookups at lines 40 and 44 are evaluated or bound without their results
ever being printed; the training script performs no queries and prints
nothing. -/
theorem c2_amended_load_precedes_queries :
    loadOrTrainLines gsSimilarityStmts = [4] ∧
    loadOrTrainLines gsTrainModelStmts = [4] ∧
    loadOrTrainLines gensimExmStmts = [] ∧
    ((queryLines gsSimilarityStmts).all fun q => 4 < q) = true ∧
    queryLines gsTrainModelStmts = [] ∧
    ((queryLines gsSimilarityStmts).filter fun l => !([17, 40, 44].contains l)) =
      [6, 10, 14, 21, 28, 32, 36] ∧
    unprintedQueryLines gsSimilarityStmts = [17, 40, 44] ∧
    everyQueryResultPrinted gsTrainModelStmts = true :=
  ⟨by decide, by decide, by decide, by decide, by decide, by decide, by decide, by decide⟩

/-- C3: the mapping is treated as immutable: no script contains a
mutation statement; the only methods the query script calls on
`word_vectors` are the read-only query methods; no script calls a
`save` (or any persistence) method; each script binds `word_vectors`
exactly once (so it is never rebound after the load or train call); and
under the big-step semantics, any run of the query section leaves the
binding of `word_vectors` — the mapping value itself — unchanged. -/
theorem c3_mapping_immutable :
    (allScripts.all fun ss => ss.all fun p => !p.2.isMutation) = true ∧
    wvMethodNames gsSimilarityStmts =
      ["most_similar", "most_similar_cosmul", "doesnt_match", "similarity",
       "similar_by_word", "wmdistance", "distance", "n_similarity", "word_vec"] ∧
    (allScripts.all fun ss => !(allMethodNames ss).contains "save") = true ∧
    (scriptTargets gsSimilarityStmts).count "word_vectors" = 1 ∧
    (scriptTargets gsTrainModelStmts).count "word_vectors" = 1 ∧
    ∀ (lib : LibInterp) (env env' : Env) (out : List Val) (v : Val),
      Exec lib env gsSimilarityQueryStmts env' out →
      lookupEnv env "word_vectors" = some v →
      lookupEnv env' "word_vectors" = some v := by
  refine ⟨by decide, by decide, by decide, by decide, by decide, ?_⟩
  intro lib env env' out v hex hv
  rw [hex.frame "word_vectors" (by decide)]
  exact hv

/-- C3, witness: a concrete run of the query section from a concrete
environment holding a concrete mapping, whose final environment still
binds `word_vectors` to that same mapping. -/
theorem c3_witness :
    ∃ env' out, Exec libTest envTest gsSimilarityQueryStmts env' out ∧
      lookupEnv env' "word_vectors" = some (Val.kvv kvTest) := by
  obtain ⟨env', out, hex⟩ := exec_test
  exact ⟨env', out, hex,
    c3_mapping_immutable.2.2.2.2.2 libTest envTest env' out (Val.kvv kvTest) hex rfl⟩

/-- C4: for a well-formed mapping of configured dimensionality 100,
every key maps to exactly one vector (keys are unique), vector lookup on
any key returns a vector of length 100, and the invariant is preserved
across the query script's whole query sequence (which leaves the mapping
untouched). -/
theorem c4_mapping_invariants (kv : KeyedVectors) (hwf : kv.WF) (hdim : kv.dim = 100) :
    (∀ (w : String) (v₁ v₂ : List ℚ),
        (w, v₁) ∈ kv.entries → (w, v₂) ∈ kv.entries → v₁ = v₂) ∧
    (∀ (w : String) (v : List ℚ), kv.lookup w = some v → v.length = 100) ∧
    (∀ (lib : LibInterp) (env env' : Env) (out : List Val),
        lookupEnv env "word_vectors" = some (.kvv kv) →
        Exec lib env gsSimilarityQueryStmts env' out →
        lookupEnv env' "word_vectors" = some (.kvv kv) ∧
        ∀ (w : String) (v : List ℚ), kv.lookup w = some v → v.length = 100) := by
  have hlen : ∀ (w : String) (v : List ℚ), kv.lookup w = some v → v.length = 100 := by
    intro w v hl
    have := (hwf.2 _ (lookup_mem hl)).1
    simpa [hdim] using this
  refine ⟨fun w v₁ v₂ h1 h2 => nodup_key_unique hwf.1 h1 h2, hlen, ?_⟩
  intro lib env env' out hv hex
  exact ⟨by rw [hex.frame "word_vectors" (by decide)]; exact hv, hlen⟩

/-- C4, witness: the invariants instantiated at a concrete well-formed
mapping of dimensionality 100. -/
theorem c4_witness :
    kvTest.WF ∧ kvTest.dim = 100 ∧
    (∀ (w : String) (v : List ℚ), kvTest.lookup w = some v → v.length = 100) :=
  ⟨⟨by decide, by decide⟩, rfl,
    (c4_mapping_invariants kvTest ⟨by decide, by decide⟩ rfl).2.1⟩

/-- C5: for every key present in a well-formed mapping, the similarity
of the key to itself equals 1, the maximum similarity value (no pair of
keys — indeed no pair of vectors — has similarity above 1), and the
pairwise distance of the key to itself is 0, as exercised by
`distance("media", "media")` at line 32 of the query script. -/
theorem c5_self_similarity_maximal (kv : KeyedVectors) (hwf : kv.WF)
    (w : String) (v : List ℚ) (hl : kv.lookup w = some v) :
    kv.similarity w w = 1 ∧ kv.dist w w = 0 ∧
    ∀ a b : String, kv.similarity a b ≤ 1 := by
  have hnz : ∃ x ∈ v, x ≠ 0 := (hwf.2 _ (lookup_mem hl)).2
  have hsim : kv.similarity w w = 1 := by
    unfold KeyedVectors.similarity
    rw [hl]
    exact cosSim_self hnz
  refine ⟨hsim, by unfold KeyedVectors.dist; rw [hsim]; ring, ?_⟩
  intro a b
  unfold KeyedVectors.similarity
  cases kv.lookup a with
  | none => norm_num
  | some u =>
    cases kv.lookup b with
    | none => norm_num
    | some vb => exact cosSim_le_one u vb

/-- C5, witness: the property instantiated at the key "media" of a
concrete well-formed mapping. -/
theorem c5_witness :
    kvTest.WF ∧ kvTest.lookup "media" = some ((1 : ℚ) :: List.replicate 99 0) ∧
    kvTest.similarity "media" "media" = 1 ∧ kvTest.dist "media" "media" = 0 := by
  have hwf : kvTest.WF := ⟨by decide, by decide⟩
  have hl : kvTest.lookup "media" = some ((1 : ℚ) :: List.replicate 99 0) := by decide
  have h := c5_self_similarity_maximal kvTest hwf "media" _ hl
  exact ⟨hwf, hl, h.1, h.2.1⟩

/-- C6: the training script constructs the mapping by a single
`Word2Vec` constructor call whose one positional argument is the
in-memory toy corpus `common_texts` and whose keyword arguments are
exactly size=100, window=5, min_count=1 and workers=4, in that order and
with no others; no other script calls the constructor. -/
theorem c6_word2vec_hyperparameters :
    word2VecCalls gsTrainModelStmts =
      [(1, ["common_texts"],
        [("size", some 100), ("window", some 5),
         ("min_count", some 1), ("workers", some 4)])] ∧
    word2VecCalls gsSimilarityStmts = [] ∧
    word2VecCalls gensimExmStmts = [] :=
  ⟨by decide, by decide, by decide⟩

/-- C7: the executable code of the repository passes exactly two string
literals to `datapath` — 'wordsim353.tsv' and 'questions-words.txt' —
and each is consumed by exactly one method call: `evaluate_word_pairs`
for the former and `evaluate_word_analogies` for the latter. -/
theorem c7_two_auxiliary_paths :
    datapathConsumers gsSimilarityStmts =
      [("evaluate_word_pairs", "wordsim353.tsv"),
       ("evaluate_word_analogies", "questions-words.txt")] ∧
    datapathArgs gsSimilarityStmts = ["wordsim353.tsv", "questions-words.txt"] ∧
    datapathArgs gsTrainModelStmts = [] ∧
    datapathArgs gensimExmStmts = [] ∧
    datapathConsumers gsTrainModelStmts = [] ∧
    datapathConsumers gensimExmStmts = [] :=
  ⟨by decide, by decide, by decide, by decide, by decide, by decide⟩

/-- C8: every statement of every script is one of the four simple
straight-line forms (no loop, branch, try, function definition or other
compound statement); the only modules imported are gensim modules (so no
threading, asyncio or other concurrency machinery is ever imported); and
the only mention of parallelism in the repository is the `workers`
keyword argument passed to the external `Word2Vec` constructor. -/
theorem c8_straight_line_no_concurrency :
    (allScripts.all fun ss => ss.all fun p => p.2.straightLine) = true ∧
    importedModules gsSimilarityStmts = ["gensim.downloader", "gensim.test.utils"] ∧
    importedModules gsTrainModelStmts = ["gensim.test.utils", "gensim.models"] ∧
    importedModules gensimExmStmts = [] ∧
    callsWithKwarg "workers" gsSimilarityStmts = [] ∧
    callsWithKwarg "workers" gsTrainModelStmts = ["Word2Vec"] ∧
    callsWithKwarg "workers" gensimExmStmts = [] :=
  ⟨by decide, by decide, by decide, by decide, by decide, by decide, by decide⟩

/-- C9: for every interpretation of the external library, running
gs_similarity.py raises a NameError for `model` at line 52; the script
never binds the name `model`; and the only statements containing the two
evaluation calls are those at lines 52 and 56 — so, execution stopping
at line 52 before the method call there is ever performed, neither
`evaluate_word_pairs` nor `evaluate_word_analogies` is ever executed. -/
theorem c9_unconditional_name_error :
    (∀ lib : LibInterp, run lib [] gsSimilarityStmts = .error (.nameError 52 "model")) ∧
    (scriptTargets gsSimilarityStmts).contains "model" = false ∧
    evaluationCallLines gsSimilarityStmts = [52, 56] := by
  exact ⟨fun lib => rfl, by decide, by decide⟩

/-- C10: execution of the query script's query sequence is
deterministic: for one library interpretation and one starting
environment (one loaded mapping), any two runs produce identical printed
output and identical final environments — every query is a pure,
deterministic read of the mapping. -/
theorem c10_query_run_deterministic
    (lib : LibInterp) (env env₁ env₂ : Env) (out₁ out₂ : List Val)
    (h₁ : Exec lib env gsSimilarityQueryStmts env₁ out₁)
    (h₂ : Exec lib env gsSimilarityQueryStmts env₂ out₂) :
    out₁ = out₂ ∧ env₁ = env₂ :=
  ⟨(h₁.deterministic h₂).2, (h₁.deterministic h₂).1⟩

/-- C10, witness: a concrete run of the query sequence, compared with
itself through the determinism theorem. -/
theorem c10_witness :
    ∃ env' out, Exec libTest envTest gsSimilarityQueryStmts env' out ∧
      (out = out ∧ env' = env') := by
  obtain ⟨env', out, hex⟩ := exec_test
  exact ⟨env', out, hex,
    c10_query_run_deterministic libTest envTest env' env' out out hex hex⟩

end Chatbot
